import Mathlib

/-!
Shallow embedding of the `ostool` repository (src/main.rs, src/project.rs,
src/step/prepare_test.rs) and proofs of the specification claims.

File paths are modelled as lists of components (`Path`), file systems as
association lists from paths to file data, and fallible Rust code as
`Except Failure`.  A Rust `panic!`/`unwrap` failure is the
`Failure.panicked` constructor; the `anyhow!` error produced by
`Arch::from_target` is `Failure.unsupportedTarget`.
-/

namespace Ostool

/-- How a run of the tool can fail.  `unsupportedTarget` models the
`anyhow::anyhow!("Unsupportedtarget: {target}")` error value of
`Arch::from_target` (src/project.rs:136); `panicked` models a Rust panic
(process abort), carrying the panic message. -/
inductive Failure where
  | unsupportedTarget (target : String)
  | panicked (msg : String)
deriving DecidableEq, Repr

/-- The closed architecture enumeration `Arch` of src/project.rs:100-104. -/
inductive Arch where
  | Aarch64
  | Riscv64
  | X86_64
deriving DecidableEq, Repr

/-- `impl Default for Arch` (src/project.rs:106-110): the default is
`Aarch64`. -/
def Arch.default : Arch := Arch.Aarch64

/-- Substring containment, modelling Rust `str::contains` with a string
pattern: the needle's character list occurs contiguously in the
haystack's character list. -/
def strContains (hay needle : String) : Bool :=
  decide (needle.toList <:+: hay.toList)

/-- `Arch::from_target` (src/project.rs:123-137): substring checks for
"aarch64", then "riscv64", then "x86_64"; otherwise the
`Unsupportedtarget` error carrying the target string. -/
def Arch.from_target (target : String) : Except Failure Arch :=
  if strContains target "aarch64" then Except.ok Arch.Aarch64
  else if strContains target "riscv64" then Except.ok Arch.Riscv64
  else if strContains target "x86_64" then Except.ok Arch.X86_64
  else Except.error (Failure.unsupportedTarget target)

/-- `Arch::qemu_arch` (src/project.rs:113-121): the emulator binary name
`format!("qemu-system-{}", arch)`. -/
def Arch.qemu_arch : Arch → String
  | Arch.Aarch64 => "qemu-system-" ++ "aarch64"
  | Arch.Riscv64 => "qemu-system-" ++ "riscv64"
  | Arch.X86_64 => "qemu-system-" ++ "x86_64"

/-- The architecture tag of a parsed executable header, from the external
`object` crate's `Architecture` enum (a representative subset of its
variants; the enum is `#[non_exhaustive]`, every variant other than the
three mapped ones falls into the wildcard arm of the `From` impl). -/
inductive Architecture where
  | Unknown
  | Aarch64
  | Arm
  | Avr
  | I386
  | Mips
  | PowerPc
  | Riscv32
  | Riscv64
  | X86_64
deriving DecidableEq, Repr

/-- The `Debug` rendering of an `Architecture` tag, used by the panic
message of the `From` impl. -/
def Architecture.debugName : Architecture → String
  | Architecture.Unknown => "Unknown"
  | Architecture.Aarch64 => "Aarch64"
  | Architecture.Arm => "Arm"
  | Architecture.Avr => "Avr"
  | Architecture.I386 => "I386"
  | Architecture.Mips => "Mips"
  | Architecture.PowerPc => "PowerPc"
  | Architecture.Riscv32 => "Riscv32"
  | Architecture.Riscv64 => "Riscv64"
  | Architecture.X86_64 => "X86_64"

/-- `impl From<Architecture> for Arch` (src/step/prepare_test.rs:38-47):
the three supported tags map to the corresponding `Arch`; every other tag
hits `panic!("{value:?} not support!")`, modelled as the `panicked`
failure carrying the panic message. -/
def Arch.fromArchitecture : Architecture → Except Failure Arch
  | Architecture.Aarch64 => Except.ok Arch.Aarch64
  | Architecture.X86_64 => Except.ok Arch.X86_64
  | Architecture.Riscv64 => Except.ok Arch.Riscv64
  | a => Except.error (Failure.panicked (a.debugName ++ " not support!"))

/-- Whether a result is the `UnsupportedTarget` error kind. -/
def isUnsupportedTargetError : Except Failure Arch → Bool
  | Except.error (Failure.unsupportedTarget _) => true
  | _ => false

/-- The step variants assembled by `main` (src/main.rs:51-60).  `Compile`
carries the debug flag passed to `Compile::run`. -/
inductive Step where
  | Compile (debug : Bool)
  | EmulatorLaunch
  | BootloaderStage
deriving DecidableEq, Repr

/-- The `qemu` subcommand's arguments (src/main.rs:33-39). -/
structure QemuArgs where
  debug : Bool
  dtb : Bool
deriving DecidableEq, Repr

/-- The subcommands of the CLI (src/main.rs:26-31). -/
inductive SubCommands where
  | Build
  | Qemu (args : QemuArgs)
  | Uboot
deriving DecidableEq, Repr

/-- The step pipeline `main` assembles for each subcommand
(src/main.rs:51-60): `Build` runs `Compile` with `debug = false`;
`Qemu(args)` runs `Compile` with `args.debug` and nothing else; `Uboot`
runs no step at all. -/
def pipeline : SubCommands → List Step
  | SubCommands.Build => [Step.Compile false]
  | SubCommands.Qemu args => [Step.Compile args.debug]
  | SubCommands.Uboot => []

/-- Modelled from the spec: the `[compile]` section of `ProjectConfig`
(target triple string, package name); the `config` module is not under
src/. -/
structure CompileConfig where
  target : String
  package : String
deriving DecidableEq, Repr

/-- Modelled from the spec: the `[qemu]` section of `ProjectConfig`
(machine type, memory size, extra launch arguments); the `config` module
is not under src/.  `machine` is optional, matching
`config.qemu.machine = Some("virt")` in src/step/prepare_test.rs:60. -/
structure Qemu where
  machine : Option String
  memory : Option String
  args : String
deriving DecidableEq, Repr

/-- Modelled from the spec: the user-scope `[uboot]` section holding
bootloader staging parameters; the `config` module is not under src/ and
the spec leaves the exact parameters implementation-defined, so two
representative string fields are used. -/
structure UbootConfig where
  serial : String
  dtb_file : String
deriving DecidableEq, Repr

/-- Modelled from the spec: `ProjectConfig` with its `compile` and `qemu`
sections and optional `uboot` section; the `config` module is not under
src/. -/
structure ProjectConfig where
  compile : CompileConfig
  qemu : Qemu
  uboot : Option UbootConfig
deriving DecidableEq, Repr

/-- Modelled from the spec: `UbootConfig::config_by_select`
(src/step/prepare_test.rs:97) prompts the user interactively; the prompt
result is modelled as a fixed selection. -/
def UbootConfig.config_by_select : UbootConfig :=
  { serial := "/dev/ttyUSB0", dtb_file := "" }

/-- Modelled from the spec: `Qemu::new_default`
(src/step/prepare_test.rs:80), the default-synthesized qemu section; the
spec's precedence scenario has the base configuration setting
`qemu.machine="virt"`. -/
def Qemu.new_default (_ : Arch) : Qemu :=
  { machine := some "virt", memory := none, args := "" }

/-- Modelled from the spec: the architecture-appropriate default target
triple chosen when synthesizing a configuration; the `os` module is not
under src/.  Each triple contains its architecture's substring, as the
resolver invariant requires. -/
def defaultTarget : Arch → String
  | Arch.Aarch64 => "aarch64-unknown-none-softfloat"
  | Arch.Riscv64 => "riscv64gc-unknown-none-elf"
  | Arch.X86_64 => "x86_64-unknown-none"

/-- Modelled from the spec: `os::new_config` (src/project.rs:21), which
synthesizes the default project configuration with
architecture-appropriate defaults; the `os` module is not under src/. -/
def new_config (a : Arch) : ProjectConfig :=
  { compile := { target := defaultTarget a, package := "kernel" },
    qemu := Qemu.new_default a,
    uboot := none }

/-- Modelled from the spec: `ProjectConfig::new`
(src/step/prepare_test.rs:59), synthesizing defaults for an
architecture; the `config` module is not under src/. -/
def ProjectConfig.new (a : Arch) : ProjectConfig := new_config a

/-- A `key = "value"` TOML line, as the serializer emits it. -/
def kvLine (k v : String) : String := k ++ " = \"" ++ v ++ "\""

/-- Modelled from the spec: `toml::to_string` on a `ProjectConfig`
(src/project.rs:22), as the list of lines of the emitted TOML document;
the toml crate is external. -/
def tomlEmit (c : ProjectConfig) : List String :=
  ["[compile]", kvLine "target" c.compile.target, kvLine "package" c.compile.package,
   "[qemu]"]
  ++ (match c.qemu.machine with | some m => [kvLine "machine" m] | none => [])
  ++ (match c.qemu.memory with | some m => [kvLine "memory" m] | none => [])
  ++ [kvLine "extra_args" c.qemu.args]
  ++ (match c.uboot with
      | some u => ["[uboot]", kvLine "serial" u.serial, kvLine "dtb_file" u.dtb_file]
      | none => [])

/-- Parse one `key = "value"` line for the given key. -/
def parseKV (k line : String) : Option String :=
  let p := (k ++ " = \"").toList
  let l := line.toList
  if p.isPrefixOf l then
    match (l.drop p.length).getLast? with
    | some c =>
        if c = '"' then some (String.mk (l.drop p.length).dropLast) else none
    | none => none
  else none

/-- Accumulator of the line-by-line TOML reader: the current section name
and the key values seen so far. -/
structure RawConfig where
  sec : String
  compile_target : Option String
  compile_package : Option String
  qemu_machine : Option String
  qemu_memory : Option String
  qemu_args : Option String
  uboot_serial : Option String
  uboot_dtb : Option String
deriving DecidableEq, Repr

/-- Process one TOML line: section headers switch the current section,
`key = "value"` lines record the value under the current section. -/
def parseLine (st : RawConfig) (line : String) : RawConfig :=
  if line = "[compile]" then { st with sec := "compile" }
  else if line = "[qemu]" then { st with sec := "qemu" }
  else if line = "[uboot]" then { st with sec := "uboot" }
  else if st.sec = "compile" then
    match parseKV "target" line with
    | some v => { st with compile_target := some v }
    | none =>
      match parseKV "package" line with
      | some v => { st with compile_package := some v }
      | none => st
  else if st.sec = "qemu" then
    match parseKV "machine" line with
    | some v => { st with qemu_machine := some v }
    | none =>
      match parseKV "memory" line with
      | some v => { st with qemu_memory := some v }
      | none =>
        match parseKV "extra_args" line with
        | some v => { st with qemu_args := some v }
        | none => st
  else if st.sec = "uboot" then
    match parseKV "serial" line with
    | some v => { st with uboot_serial := some v }
    | none =>
      match parseKV "dtb_file" line with
      | some v => { st with uboot_dtb := some v }
      | none => st
  else st

/-- Modelled from the spec: `toml::from_str` into a `ProjectConfig`
(src/project.rs:26), over the list of lines of a TOML document; `none`
models a parse failure.  The mandatory `compile` keys and the
`extra_args` key must be present. -/
def tomlParse (lines : List String) : Option ProjectConfig :=
  let st := lines.foldl parseLine
    { sec := "", compile_target := none, compile_package := none, qemu_machine := none,
      qemu_memory := none, qemu_args := none, uboot_serial := none, uboot_dtb := none }
  match st.compile_target, st.compile_package, st.qemu_args with
  | some t, some p, some a =>
      some { compile := { target := t, package := p },
             qemu := { machine := st.qemu_machine, memory := st.qemu_memory, args := a },
             uboot :=
               match st.uboot_serial, st.uboot_dtb with
               | some s, some d => some { serial := s, dtb_file := d }
               | _, _ => none }
  | _, _, _ => none

/-- The synthesized default configuration round-trips through the TOML
writer and reader, for each architecture. -/
theorem tomlParse_tomlEmit_new_config (a : Arch) :
    tomlParse (tomlEmit (new_config a)) = some (new_config a) := by
  cases a <;> rfl

/-- The default target triple synthesized for an architecture resolves
back to that architecture. -/
theorem from_target_defaultTarget (a : Arch) :
    Arch.from_target (defaultTarget a) = Except.ok a := by
  cases a <;> rfl

/-- A file path, as its list of components (mirroring `PathBuf`, where
`join` appends a component and `parent` drops the last one). -/
abbrev Path := List String

/-- Association-list lookup by key. -/
def assocLookup {α β : Type} [DecidableEq α] (k : α) : List (α × β) → Option β
  | [] => none
  | (k', v) :: rest => if k' = k then some v else assocLookup k rest

/-- The content of one file, at the granularity the embedding needs:
plain text files carry their lines; executable images carry their parsed
header architecture and body; the three externally-parsed TOML files
(`bare-test.toml`, `Cargo.toml`, `.bare-test.toml`) carry their parsed
form, since their parser is the external toml/serde machinery. -/
inductive FileData where
  | text (lines : List String)
  | elfFile (arch : Architecture) (body : String)
  | binFile (body : String)
  | testToml (qemu : Option Qemu)
  | cargoToml (test_qemu : Option (List (String × Qemu)))
  | ubootToml (c : UbootConfig)
deriving DecidableEq, Repr

/-- A file system: an association list from paths to file data. -/
abbrev FS := List (Path × FileData)

/-- Read the file at a path; `none` when absent. -/
def FS.read (fs : FS) (p : Path) : Option FileData := assocLookup p fs

/-- Write (create or overwrite) the file at a path. -/
def FS.write : FS → Path → FileData → FS
  | [], p, d => [(p, d)]
  | (q, e) :: rest, p, d =>
      if q = p then (p, d) :: rest else (q, e) :: FS.write rest p d

/-- Remove the file at a path (no-op when absent, as
`let _ = fs::remove_file(..)` ignores the error). -/
def FS.remove (fs : FS) (p : Path) : FS :=
  fs.filter (fun e => decide (e.1 ≠ p))

theorem FS.read_write (fs : FS) (p : Path) (d : FileData) :
    FS.read (FS.write fs p d) p = some d := by
  induction fs with
  | nil => simp [FS.read, FS.write, assocLookup]
  | cons e rest ih =>
      obtain ⟨q, e'⟩ := e
      by_cases h : q = p
      · simp [FS.read, FS.write, assocLookup, h]
      · simpa [FS.read, FS.write, assocLookup, h] using ih

theorem FS.read_write_ne (fs : FS) (p q : Path) (d : FileData) (h : q ≠ p) :
    FS.read (FS.write fs q d) p = FS.read fs p := by
  induction fs with
  | nil => simp [FS.read, FS.write, assocLookup, h]
  | cons e rest ih =>
      obtain ⟨r, e'⟩ := e
      by_cases hr : r = q
      · subst hr
        simp [FS.read, FS.write, assocLookup, h]
      · by_cases hp : r = p
        · subst hp
          simp [FS.read, FS.write, assocLookup, hr]
        · simpa [FS.read, FS.write, assocLookup, hr, hp] using ih

theorem FS.read_remove_self (fs : FS) (p : Path) :
    FS.read (FS.remove fs p) p = none := by
  induction fs with
  | nil => rfl
  | cons e rest ih =>
      by_cases h : e.1 = p <;> simp_all [FS.read, FS.remove, assocLookup, List.filter]

theorem FS.read_remove_ne (fs : FS) (p q : Path) (h : q ≠ p) :
    FS.read (FS.remove fs q) p = FS.read fs p := by
  induction fs with
  | nil => rfl
  | cons e rest ih =>
      by_cases he : e.1 = q <;> by_cases hp : e.1 = p <;>
        simp_all [FS.read, FS.remove, assocLookup, List.filter]

/-- Two paths whose last components differ are different paths. -/
theorem path_ne_of_last_ne {l1 l2 : Path} {a b : String} (h : a ≠ b) :
    l1 ++ [a] ≠ l2 ++ [b] := by
  intro he
  have h1 : (l1 ++ [a]).getLast? = some a := by simp
  have h2 : (l2 ++ [b]).getLast? = some b := by simp
  rw [he, h2] at h1
  exact h (Option.some.inj h1).symm

/-- The `Project` struct of src/project.rs:7-12. -/
structure Project where
  workdir : Path
  config : ProjectConfig
  arch : Arch
  bin_path : Option Path
deriving DecidableEq, Repr

/-- The configuration file path chosen by `Project::new`
(src/project.rs:16-18): the `--config` argument when given, else
`workdir/.project.toml`. -/
def configPathOf (workdir : Path) (config : Option Path) : Path :=
  config.getD (workdir ++ [".project.toml"])

/-- `Project::new` (src/project.rs:15-36) as a state-passing function
over the file system.  When the configuration file is absent, a default
configuration is synthesized (by `os::new_config`, whose architecture
choice is the `defaultArch` parameter) and written; when present, it is
read and parsed (an `unwrap` panic on failure).  Then the architecture
is resolved from `compile.target` with `.unwrap()` — a resolution error
panics, aborting construction. -/
def Project.new (fs : FS) (workdir : Path) (config_arg : Option Path)
    (defaultArch : Arch) : Except Failure (Project × FS) :=
  let config_path := configPathOf workdir config_arg
  let loaded : Except Failure (ProjectConfig × FS) :=
    match FS.read fs config_path with
    | none =>
        let config := new_config defaultArch
        Except.ok (config, FS.write fs config_path (FileData.text (tomlEmit config)))
    | some (FileData.text lines) =>
        match tomlParse lines with
        | some config => Except.ok (config, fs)
        | none => Except.error (Failure.panicked "config parse error")
    | some _ => Except.error (Failure.panicked "config read error")
  match loaded with
  | Except.error e => Except.error e
  | Except.ok (config, fs1) =>
      match Arch.from_target config.compile.target with
      | Except.ok arch =>
          Except.ok ({ workdir := workdir, config := config, arch := arch,
                       bin_path := none }, fs1)
      | Except.error _ =>
          Except.error (Failure.panicked ("Unsupportedtarget: " ++ config.compile.target))

/-- Rust `Path::file_stem` on a file name: the portion before the last
dot, except that a name with no dot, or only a leading dot, is its own
stem. -/
def stemOf (name : String) : String :=
  let rs := name.toList.reverse
  match rs.dropWhile (fun c => decide (c ≠ '.')) with
  | [] => name
  | _ :: [] => name
  | _ :: before => String.mk before.reverse

/-- Modelled from the spec: the byte-level strip/convert transformation
performed by the external `rust-objcopy` invocation
(src/step/prepare_test.rs:72-78); the spec leaves the conversion
algorithm out of scope, only the path derivation and pre-clean are part
of the contract. -/
def stripConvert (body : String) : String := body

/-- The project context mutated by the step module's `Project` (the
version of the struct used by src/step/prepare_test.rs, whose defining
module is not under src/): working directory, optional resolved
architecture, output directory, resolved configuration and the
(elf_path, bin_path) pair set by `set_binaries`. -/
structure ProjectCtx where
  workdir : Path
  arch : Option Arch
  out_dir : Option Path
  config : Option ProjectConfig
  elf_path : Option Path
  bin_path : Option Path
deriving DecidableEq, Repr

/-- The `CargoTestPrepare` step (src/step/prepare_test.rs:21-24): the
test image path and the bootloader-required flag. -/
structure CargoTestPrepare where
  elf : Path
  uboot : Bool
deriving DecidableEq, Repr

/-- The test-scope override (src/step/prepare_test.rs:82-90): when
`bare-test.toml` exists it must parse as a `Config { qemu: Option<Qemu> }`
and its qemu section, when present, wholesale-replaces the current one. -/
def resolveQemuTest (fs : FS) (wd : Path) (cur : Qemu) : Except Failure Qemu :=
  match FS.read fs (wd ++ ["bare-test.toml"]) with
  | none => Except.ok cur
  | some (FileData.testToml q) =>
      Except.ok (match q with | some qq => qq | none => cur)
  | some _ => Except.error (Failure.panicked "bare-test.toml parse error")

/-- The user-scope bootloader configuration (src/step/prepare_test.rs:
92-104): only consulted when the uboot flag is set; if `.bare-test.toml`
is absent the configuration is selected interactively and persisted,
otherwise it is read and parsed. -/
def resolveUboot (fs : FS) (wd : Path) (uboot : Bool) :
    Except Failure (Option UbootConfig × FS) :=
  if uboot then
    match FS.read fs (wd ++ [".bare-test.toml"]) with
    | none =>
        let u := UbootConfig.config_by_select
        Except.ok (some u, FS.write fs (wd ++ [".bare-test.toml"]) (FileData.ubootToml u))
    | some (FileData.ubootToml u) => Except.ok (some u, fs)
    | some _ => Except.error (Failure.panicked ".bare-test.toml parse error")
  else Except.ok (none, fs)

/-- The manifest per-architecture override (src/step/prepare_test.rs:
106-115): `Cargo.toml` must exist and parse; when its `test-qemu` table
has an entry keyed by the resolved architecture's emulator binary name,
that entry wholesale-replaces all prior qemu resolution. -/
def resolveManifest (fs : FS) (wd : Path) (arch : Arch) (cur : Qemu) :
    Except Failure Qemu :=
  match FS.read fs (wd ++ ["Cargo.toml"]) with
  | some (FileData.cargoToml test_qemu) =>
      match test_qemu with
      | some arch_map =>
          match assocLookup (Arch.qemu_arch arch) arch_map with
          | some q => Except.ok q
          | none => Except.ok cur
      | none => Except.ok cur
  | some _ => Except.error (Failure.panicked "Cargo.toml parse error")
  | none => Except.error (Failure.panicked "Cargo.toml read error")

/-- `CargoTestPrepare::run` (src/step/prepare_test.rs:49-121) as a
state-passing function over the file system: read and parse the test
image, resolve its architecture, derive the output directory and the
artifact paths, pre-clean and regenerate the staged ELF copy and the raw
binary, then resolve the qemu configuration through the precedence chain
(synthesized default, test-scope file, manifest table) and the optional
uboot configuration, and commit everything into the context. -/
def CargoTestPrepare.run (self : CargoTestPrepare) (project : ProjectCtx)
    (fs : FS) : Except Failure (ProjectCtx × FS) :=
  match FS.read fs self.elf with
  | some (FileData.elfFile archTag _) =>
      (match Arch.fromArchitecture archTag with
       | Except.error e => Except.error e
       | Except.ok arch =>
          match self.elf.getLast? with
          | none => Except.error (Failure.panicked "no file name")
          | some name =>
              let out_dir := self.elf.dropLast
              let test_name := stemOf name
              let config0 := ProjectConfig.new arch
              let config1 := { config0 with
                qemu := { config0.qemu with machine := some "virt" } }
              let bin_path := out_dir ++ [test_name ++ ".bin"]
              let elf_path := out_dir ++ ["test.elf"]
              let fs1 := FS.remove fs elf_path
              let fs2 :=
                match FS.read fs1 self.elf with
                | some d => FS.write fs1 elf_path d
                | none => fs1
              let fs3 := FS.remove fs2 bin_path
              match FS.read fs3 self.elf with
              | some (FileData.elfFile _ body2) =>
                  let fs4 := FS.write fs3 bin_path (FileData.binFile (stripConvert body2))
                  let config2 := { config1 with qemu := Qemu.new_default arch }
                  match resolveQemuTest fs4 project.workdir config2.qemu with
                  | Except.error e => Except.error e
                  | Except.ok qemu3 =>
                      let config3 := { config2 with qemu := qemu3 }
                      match resolveUboot fs4 project.workdir self.uboot with
                      | Except.error e => Except.error e
                      | Except.ok (ub, fs5) =>
                          let config4 := { config3 with
                            uboot :=
                              match ub with
                              | some u => some u
                              | none => config3.uboot }
                          match resolveManifest fs5 project.workdir arch config4.qemu with
                          | Except.error e => Except.error e
                          | Except.ok qemu5 =>
                              let config5 := { config4 with qemu := qemu5 }
                              Except.ok ({ project with
                                arch := some arch,
                                out_dir := some out_dir,
                                config := some config5,
                                elf_path := some elf_path,
                                bin_path := some bin_path }, fs5)
              | _ => Except.error (Failure.panicked "rust-objcopy failed"))
  | some _ => Except.error (Failure.panicked "object parse error")
  | none => Except.error (Failure.panicked "failed to read elf file")

theorem string_data_append (s t : String) : (s ++ t).data = s.data ++ t.data := rfl

/-- Appending ".bin" forces the last character to be `n`. -/
theorem last_append_bin (s : String) : (s ++ ".bin").data.getLast? = some 'n' := by
  rw [string_data_append, List.getLast?_append_of_ne_nil]
  · rfl
  · simp [String.data]

theorem string_ne_of_data_last_ne {s t : String}
    (h : s.data.getLast? ≠ t.data.getLast?) : s ≠ t :=
  fun he => h (by rw [he])

theorem append_bin_ne_test_elf (s : String) : s ++ ".bin" ≠ "test.elf" :=
  string_ne_of_data_last_ne (by rw [last_append_bin]; decide)

theorem append_bin_ne_user (s : String) : s ++ ".bin" ≠ ".bare-test.toml" :=
  string_ne_of_data_last_ne (by rw [last_append_bin]; decide)

theorem append_bin_ne_bare (s : String) : s ++ ".bin" ≠ "bare-test.toml" :=
  string_ne_of_data_last_ne (by rw [last_append_bin]; decide)

theorem append_bin_ne_cargo (s : String) : s ++ ".bin" ≠ "Cargo.toml" :=
  string_ne_of_data_last_ne (by rw [last_append_bin]; decide)

/-- `resolveQemuTest` depends on the file system only through the
test-scope file's path. -/
theorem resolveQemuTest_congr {fs1 fs2 : FS} {wd : Path} (cur : Qemu)
    (h : FS.read fs1 (wd ++ ["bare-test.toml"]) = FS.read fs2 (wd ++ ["bare-test.toml"])) :
    resolveQemuTest fs1 wd cur = resolveQemuTest fs2 wd cur := by
  unfold resolveQemuTest
  rw [h]

/-- `resolveManifest` depends on the file system only through the
manifest's path. -/
theorem resolveManifest_congr {fs1 fs2 : FS} {wd : Path} (arch : Arch) (cur : Qemu)
    (h : FS.read fs1 (wd ++ ["Cargo.toml"]) = FS.read fs2 (wd ++ ["Cargo.toml"])) :
    resolveManifest fs1 wd arch cur = resolveManifest fs2 wd arch cur := by
  unfold resolveManifest
  rw [h]

/-- `resolveUboot` leaves every path other than the user-scope file
unchanged. -/
theorem resolveUboot_fs {fs fs' : FS} {wd : Path} {u : Bool} {ub : Option UbootConfig}
    (h : resolveUboot fs wd u = Except.ok (ub, fs')) (p : Path)
    (hp : p ≠ wd ++ [".bare-test.toml"]) :
    FS.read fs' p = FS.read fs p := by
  unfold resolveUboot at h
  split at h
  · split at h
    · have := Except.ok.inj h
      injection this with h1 h2
      rw [← h2, FS.read_write_ne _ _ _ _ (Ne.symm hp)]
    · have := Except.ok.inj h
      injection this with h1 h2
      rw [← h2]
    · simp at h
  · have := Except.ok.inj h
    injection this with h1 h2
    rw [← h2]

/-- Full characterization of a successful `CargoTestPrepare::run`: the
committed artifact paths and output directory, the frame property
(paths other than the two artifact paths and the user-scope uboot file
are untouched), the resolved architecture and configuration, and the
freshly regenerated artifact contents. -/
theorem run_ok_spec (self : CargoTestPrepare) (ctx ctx' : ProjectCtx) (fs fs' : FS)
    (h : CargoTestPrepare.run self ctx fs = Except.ok (ctx', fs')) :
    ctx'.elf_path = some (self.elf.dropLast ++ ["test.elf"]) ∧
    ctx'.bin_path = some (self.elf.dropLast ++
      [stemOf (self.elf.getLast?.getD "") ++ ".bin"]) ∧
    ctx'.out_dir = some self.elf.dropLast ∧
    self.elf ≠ [] ∧
    (∀ p, p ≠ self.elf.dropLast ++ ["test.elf"] →
      p ≠ self.elf.dropLast ++ [stemOf (self.elf.getLast?.getD "") ++ ".bin"] →
      p ≠ ctx.workdir ++ [".bare-test.toml"] →
      FS.read fs' p = FS.read fs p) ∧
    (∀ A body, FS.read fs self.elf = some (FileData.elfFile A body) →
      (∀ arch, Arch.fromArchitecture A = Except.ok arch →
        ctx'.arch = some arch ∧
        ∀ q3 q5, resolveQemuTest fs ctx.workdir (Qemu.new_default arch) = Except.ok q3 →
          resolveManifest fs ctx.workdir arch q3 = Except.ok q5 →
          Option.map (fun c => c.qemu) ctx'.config = some q5) ∧
      (self.elf ≠ self.elf.dropLast ++ ["test.elf"] →
        self.elf ≠ self.elf.dropLast ++ [stemOf (self.elf.getLast?.getD "") ++ ".bin"] →
        FS.read fs' (self.elf.dropLast ++ [stemOf (self.elf.getLast?.getD "") ++ ".bin"]) =
          some (FileData.binFile (stripConvert body)) ∧
        FS.read fs' (self.elf.dropLast ++ ["test.elf"]) =
          some (FileData.elfFile A body))) := by
  unfold CargoTestPrepare.run at h
  split at h
  case h_2 => simp at h
  case h_3 => simp at h
  rename_i archTag body0 heqelf
  split at h
  case h_1 => simp at h
  rename_i arch heqarch
  split at h
  case h_1 => simp at h
  rename_i name heqname
  simp only [] at h
  split at h
  case h_2 => simp at h
  rename_i A2 body2 heqobj
  split at h
  case h_1 => simp at h
  rename_i qemu3 heqq
  split at h
  case h_1 => simp at h
  rename_i ub fs5 hequ
  split at h
  case h_1 => simp at h
  rename_i qemu5 heqm
  have hpair := Except.ok.inj h
  injection hpair with hctx hfs
  subst hfs
  subst hctx
  simp only [heqname, Option.getD_some]
  -- abbreviations recovered from the branch equations
  have hnelf : self.elf ≠ [] := by
    intro he; rw [he] at heqname; simp at heqname
  have hcopyfact : ∀ p, p ≠ List.dropLast self.elf ++ ["test.elf"] →
      FS.read (match FS.read (FS.remove fs (List.dropLast self.elf ++ ["test.elf"]))
          self.elf with
        | some d => FS.write (FS.remove fs (List.dropLast self.elf ++ ["test.elf"]))
            (List.dropLast self.elf ++ ["test.elf"]) d
        | none => FS.remove fs (List.dropLast self.elf ++ ["test.elf"])) p =
      FS.read (FS.remove fs (List.dropLast self.elf ++ ["test.elf"])) p := by
    intro p hp
    cases hcopy : FS.read (FS.remove fs (List.dropLast self.elf ++ ["test.elf"])) self.elf with
    | some d => simp only [hcopy]; exact FS.read_write_ne _ _ _ _ (Ne.symm hp)
    | none => simp only [hcopy]
  have hcopycontent : self.elf ≠ List.dropLast self.elf ++ ["test.elf"] →
      FS.read (match FS.read (FS.remove fs (List.dropLast self.elf ++ ["test.elf"]))
          self.elf with
        | some d => FS.write (FS.remove fs (List.dropLast self.elf ++ ["test.elf"]))
            (List.dropLast self.elf ++ ["test.elf"]) d
        | none => FS.remove fs (List.dropLast self.elf ++ ["test.elf"]))
        (List.dropLast self.elf ++ ["test.elf"]) =
      FS.read fs self.elf := by
    intro hne
    cases hcopy : FS.read (FS.remove fs (List.dropLast self.elf ++ ["test.elf"])) self.elf with
    | some d =>
        simp only [hcopy, FS.read_write]
        rw [FS.read_remove_ne _ _ _ (Ne.symm hne)] at hcopy
        exact hcopy.symm
    | none =>
        exfalso
        rw [FS.read_remove_ne _ _ _ (Ne.symm hne), heqelf] at hcopy
        exact Option.noConfusion hcopy
  refine ⟨trivial, trivial, trivial, hnelf, ?_, ?_⟩
  · -- frame property
    intro p hp1 hp2 hp3
    rw [resolveUboot_fs hequ p hp3]
    rw [FS.read_write_ne _ _ _ _ (Ne.symm hp2)]
    rw [FS.read_remove_ne _ _ _ (Ne.symm hp2)]
    rw [hcopyfact p hp1]
    exact FS.read_remove_ne _ _ _ (Ne.symm hp1)
  · intro A body hAB
    rw [heqelf] at hAB
    have hfd := Option.some.inj hAB
    injection hfd with hA hbody
    subst hA
    subst hbody
    constructor
    · intro arch' heqarch'
      rw [heqarch] at heqarch'
      have harch := Except.ok.inj heqarch'
      subst harch
      refine ⟨rfl, ?_⟩
      intro q3 q5 hq3 hq5
      have hbare : FS.read (FS.write (FS.remove (match FS.read (FS.remove fs
            (List.dropLast self.elf ++ ["test.elf"])) self.elf with
          | some d => FS.write (FS.remove fs (List.dropLast self.elf ++ ["test.elf"]))
              (List.dropLast self.elf ++ ["test.elf"]) d
          | none => FS.remove fs (List.dropLast self.elf ++ ["test.elf"]))
            (List.dropLast self.elf ++ [stemOf name ++ ".bin"]))
          (List.dropLast self.elf ++ [stemOf name ++ ".bin"])
          (FileData.binFile (stripConvert body2)))
          (ctx.workdir ++ ["bare-test.toml"]) =
          FS.read fs (ctx.workdir ++ ["bare-test.toml"]) := by
        rw [FS.read_write_ne _ _ _ _ (path_ne_of_last_ne (append_bin_ne_bare _))]
        rw [FS.read_remove_ne _ _ _ (path_ne_of_last_ne (append_bin_ne_bare _))]
        rw [hcopyfact _ (Ne.symm (path_ne_of_last_ne (by decide)))]
        exact FS.read_remove_ne _ _ _ (path_ne_of_last_ne (by decide))
      rw [resolveQemuTest_congr (Qemu.new_default arch) hbare.symm] at hq3
      rw [heqq] at hq3
      have hq3e := Except.ok.inj hq3
      subst hq3e
      have hcargo : FS.read fs5 (ctx.workdir ++ ["Cargo.toml"]) =
          FS.read fs (ctx.workdir ++ ["Cargo.toml"]) := by
        rw [resolveUboot_fs hequ _ (path_ne_of_last_ne (by decide))]
        rw [FS.read_write_ne _ _ _ _ (path_ne_of_last_ne (append_bin_ne_cargo _))]
        rw [FS.read_remove_ne _ _ _ (path_ne_of_last_ne (append_bin_ne_cargo _))]
        rw [hcopyfact _ (Ne.symm (path_ne_of_last_ne (by decide)))]
        exact FS.read_remove_ne _ _ _ (path_ne_of_last_ne (by decide))
      rw [resolveManifest_congr arch qemu3 hcargo.symm] at hq5
      rw [heqm] at hq5
      have hq5e := Except.ok.inj hq5
      subst hq5e
      rfl
    · intro hne1 hne2
      have hobj : FS.read (FS.remove (match FS.read (FS.remove fs
            (List.dropLast self.elf ++ ["test.elf"])) self.elf with
          | some d => FS.write (FS.remove fs (List.dropLast self.elf ++ ["test.elf"]))
              (List.dropLast self.elf ++ ["test.elf"]) d
          | none => FS.remove fs (List.dropLast self.elf ++ ["test.elf"]))
            (List.dropLast self.elf ++ [stemOf name ++ ".bin"])) self.elf =
          FS.read fs self.elf := by
        rw [FS.read_remove_ne _ _ _ (Ne.symm hne2)]
        rw [hcopyfact _ hne1]
        exact FS.read_remove_ne _ _ _ (Ne.symm hne1)
      rw [hobj, heqelf] at heqobj
      have hfd2 := Option.some.inj heqobj
      injection hfd2 with hA2 hbody2
      subst hA2
      subst hbody2
      constructor
      · rw [resolveUboot_fs hequ _ (path_ne_of_last_ne (append_bin_ne_user _))]
        exact FS.read_write _ _ _
      · rw [resolveUboot_fs hequ _ (path_ne_of_last_ne (by decide))]
        rw [FS.read_write_ne _ _ _ _ (path_ne_of_last_ne (append_bin_ne_test_elf _))]
        rw [FS.read_remove_ne _ _ _ (path_ne_of_last_ne (append_bin_ne_test_elf _))]
        rw [hcopycontent hne1, heqelf]

/-- C1: For every target-triple string, `Arch::from_target` checks
substring containment in the fixed priority order Aarch64, then Riscv64,
then X86_64: a string containing "aarch64" resolves to Aarch64; otherwise
one containing "riscv64" resolves to Riscv64; otherwise one containing
"x86_64" resolves to X86_64; every other string fails with the
UnsupportedTarget error carrying the offending string, never a default. -/
theorem from_target_priority_order (t : String) :
    (("aarch64".toList <:+: t.toList) → Arch.from_target t = Except.ok Arch.Aarch64) ∧
    (¬ ("aarch64".toList <:+: t.toList) → ("riscv64".toList <:+: t.toList) →
      Arch.from_target t = Except.ok Arch.Riscv64) ∧
    (¬ ("aarch64".toList <:+: t.toList) → ¬ ("riscv64".toList <:+: t.toList) →
      ("x86_64".toList <:+: t.toList) → Arch.from_target t = Except.ok Arch.X86_64) ∧
    (¬ ("aarch64".toList <:+: t.toList) → ¬ ("riscv64".toList <:+: t.toList) →
      ¬ ("x86_64".toList <:+: t.toList) →
      Arch.from_target t = Except.error (Failure.unsupportedTarget t)) := by
  refine ⟨fun h1 => ?_, fun h1 h2 => ?_, fun h1 h2 h3 => ?_, fun h1 h2 h3 => ?_⟩ <;>
    simp_all [Arch.from_target, strContains, String.toList]

/-- Witness for C1: concrete triples exercising each branch of
`from_target_priority_order`, hypotheses discharged by `decide`. -/
theorem from_target_priority_order_witness :
    Arch.from_target "aarch64-unknown-none" = Except.ok Arch.Aarch64 ∧
    Arch.from_target "riscv64gc-unknown-none-elf" = Except.ok Arch.Riscv64 ∧
    Arch.from_target "x86_64-unknown-none" = Except.ok Arch.X86_64 ∧
    Arch.from_target "powerpc-unknown-linux" =
      Except.error (Failure.unsupportedTarget "powerpc-unknown-linux") :=
  ⟨(from_target_priority_order "aarch64-unknown-none").1 (by decide),
   (from_target_priority_order "riscv64gc-unknown-none-elf").2.1 (by decide) (by decide),
   (from_target_priority_order "x86_64-unknown-none").2.2.1 (by decide) (by decide) (by decide),
   (from_target_priority_order "powerpc-unknown-linux").2.2.2 (by decide) (by decide) (by decide)⟩

/-- C9: the `Arch → emulator binary name` mapping `qemu_arch` is total on
the closed architecture set with Aarch64 ↦ "qemu-system-aarch64",
Riscv64 ↦ "qemu-system-riscv64", X86_64 ↦ "qemu-system-x86_64"; being a
function, it yields the same output on the same input. -/
theorem qemu_arch_total_stable :
    Arch.qemu_arch Arch.Aarch64 = "qemu-system-aarch64" ∧
    Arch.qemu_arch Arch.Riscv64 = "qemu-system-riscv64" ∧
    Arch.qemu_arch Arch.X86_64 = "qemu-system-x86_64" := by
  refine ⟨?_, ?_, ?_⟩ <;> rfl

/-- C4 counterexample: at the unmapped header tag `Arm`, the
`From<Architecture> for Arch` impl aborts the process with a panic
carrying the tag, rather than failing with the string resolver's
UnsupportedTarget error kind — so the claim that unmapped tags fail with
the same UnsupportedTarget error kind (rather than aborting the process)
is false. -/
theorem fromArchitecture_panics_on_unmapped :
    Arch.fromArchitecture Architecture.Arm =
      Except.error (Failure.panicked "Arm not support!") ∧
    isUnsupportedTargetError (Arch.fromArchitecture Architecture.Arm) = false := by
  exact ⟨rfl, rfl⟩

/-- C4 (amended): the second resolver entry point maps the
Aarch64/Riscv64/X86_64 header tags to the corresponding Architecture,
and every other tag aborts the process with a panic carrying the
offending tag's debug rendering — not a returned UnsupportedTarget
error, and never a silent default. -/
theorem fromArchitecture_closed_mapping (a : Architecture) :
    (a = Architecture.Aarch64 → Arch.fromArchitecture a = Except.ok Arch.Aarch64) ∧
    (a = Architecture.Riscv64 → Arch.fromArchitecture a = Except.ok Arch.Riscv64) ∧
    (a = Architecture.X86_64 → Arch.fromArchitecture a = Except.ok Arch.X86_64) ∧
    (a ≠ Architecture.Aarch64 → a ≠ Architecture.Riscv64 → a ≠ Architecture.X86_64 →
      Arch.fromArchitecture a =
        Except.error (Failure.panicked (a.debugName ++ " not support!"))) := by
  cases a <;> refine ⟨fun h => ?_, fun h => ?_, fun h => ?_, fun h1 h2 h3 => ?_⟩ <;>
    first | rfl | simp_all

/-- Witness for the amended C4: concrete tags exercising the mapped and
unmapped branches of `fromArchitecture_closed_mapping`. -/
theorem fromArchitecture_closed_mapping_witness :
    Arch.fromArchitecture Architecture.Riscv64 = Except.ok Arch.Riscv64 ∧
    Arch.fromArchitecture Architecture.I386 =
      Except.error (Failure.panicked "I386 not support!") :=
  ⟨(fromArchitecture_closed_mapping Architecture.Riscv64).2.1 rfl,
   (fromArchitecture_closed_mapping Architecture.I386).2.2.2
     (by decide) (by decide) (by decide)⟩

/-- C2 counterexample: `main` assembles neither `[Compile, EmulatorLaunch]`
for the `qemu` subcommand nor `[Compile, BootloaderStage]` for the `uboot`
subcommand — the `Qemu` arm runs only `Compile` and the `Uboot` arm runs
no step at all (src/main.rs:51-60). -/
theorem pipeline_qemu_uboot_counterexample :
    pipeline (SubCommands.Qemu ⟨false, false⟩) ≠
      [Step.Compile false, Step.EmulatorLaunch] ∧
    pipeline SubCommands.Uboot ≠ [Step.Compile false, Step.BootloaderStage] := by
  exact ⟨by decide, by decide⟩

/-- C2 (amended): for every invocation, the pipeline assembled for the
`qemu` subcommand is `[Compile]` alone, with the debug flag selecting the
build profile passed to Compile and no EmulatorLaunch step, and the
pipeline assembled for the `uboot` subcommand is empty — no step runs
after argument parsing. -/
theorem pipeline_qemu_uboot_amended (args : QemuArgs) :
    pipeline (SubCommands.Qemu args) = [Step.Compile args.debug] ∧
    pipeline SubCommands.Uboot = [] := by
  exact ⟨rfl, rfl⟩

/-- C5: for every architecture, synthesizing the default project
configuration, serializing it to the configuration file, and parsing
that file back yields a `ProjectConfig` equal to the synthesized
original (TOML round-trip equality). -/
theorem config_default_roundtrip (a : Arch) :
    tomlParse (tomlEmit (new_config a)) = some (new_config a) :=
  tomlParse_tomlEmit_new_config a

/-- The synthesized default configuration's target resolves to the
architecture it was synthesized for. -/
theorem from_target_new_config (a : Arch) :
    Arch.from_target (new_config a).compile.target = Except.ok a := by
  cases a <;> rfl

/-- C6: `Project::new` writes the base configuration file only when it
is absent (synthesizing architecture-appropriate defaults and persisting
them); when the file exists it is read and parsed but not written, and a
second run with the file present returns the same project and leaves the
file system unchanged. -/
theorem project_new_writes_only_when_absent (fs : FS) (wd : Path)
    (cfg : Option Path) (da : Arch) :
    (FS.read fs (configPathOf wd cfg) = none →
      Project.new fs wd cfg da =
        Except.ok ({ workdir := wd, config := new_config da, arch := da, bin_path := none },
          FS.write fs (configPathOf wd cfg) (FileData.text (tomlEmit (new_config da))))) ∧
    (FS.read fs (configPathOf wd cfg) ≠ none →
      ∀ pr fs2, Project.new fs wd cfg da = Except.ok (pr, fs2) → fs2 = fs) ∧
    (FS.read fs (configPathOf wd cfg) = none →
      ∀ pr fs1, Project.new fs wd cfg da = Except.ok (pr, fs1) →
        Project.new fs1 wd cfg da = Except.ok (pr, fs1)) := by
  refine ⟨fun habs => ?_, fun hpres pr fs2 h => ?_, fun habs pr fs1 h => ?_⟩
  · simp [Project.new, habs, from_target_new_config]
  · cases hread : FS.read fs (configPathOf wd cfg) with
    | none => exact absurd hread hpres
    | some d =>
        simp [Project.new, hread] at h
        cases d <;> simp at h
        rename_i lines
        cases hparse : tomlParse lines with
        | none => simp [hparse] at h
        | some c =>
            simp only [hparse] at h
            cases htgt : Arch.from_target c.compile.target with
            | ok arch => simp only [htgt] at h; simp at h; exact h.2.symm
            | error e => simp only [htgt] at h; simp at h
  · have hEval : Project.new fs wd cfg da =
        Except.ok ({ workdir := wd, config := new_config da, arch := da, bin_path := none },
          FS.write fs (configPathOf wd cfg) (FileData.text (tomlEmit (new_config da)))) := by
      simp [Project.new, habs, from_target_new_config]
    rw [hEval] at h
    have hp := Except.ok.inj h
    injection hp with hpr hfs
    subst hfs
    rw [← hpr]
    simp [Project.new, FS.read_write, tomlParse_tomlEmit_new_config, from_target_new_config]

/-- Witness for C6: on the empty file system the configuration file is
absent, so the first run writes it, and a second run on the resulting
file system returns the same project and the unchanged file system. -/
theorem project_new_writes_only_when_absent_witness :
    Project.new [] ["w"] none Arch.Aarch64 =
      Except.ok ({ workdir := ["w"], config := new_config Arch.Aarch64,
                   arch := Arch.Aarch64, bin_path := none },
        FS.write [] (configPathOf ["w"] none)
          (FileData.text (tomlEmit (new_config Arch.Aarch64)))) ∧
    Project.new
        (FS.write [] (configPathOf ["w"] none)
          (FileData.text (tomlEmit (new_config Arch.Aarch64)))) ["w"] none Arch.Aarch64 =
      Except.ok ({ workdir := ["w"], config := new_config Arch.Aarch64,
                   arch := Arch.Aarch64, bin_path := none },
        FS.write [] (configPathOf ["w"] none)
          (FileData.text (tomlEmit (new_config Arch.Aarch64)))) := by
  have h1 := (project_new_writes_only_when_absent [] ["w"] none Arch.Aarch64).1 rfl
  exact ⟨h1, (project_new_writes_only_when_absent [] ["w"] none Arch.Aarch64).2.2 rfl _ _ h1⟩

/-- C7: for every successfully constructed project, the stored
architecture is exactly the one `Arch::from_target` resolves from
`compile.target`; and when the configuration file parses to a
configuration whose target resolves to no known architecture,
construction fails instead of completing. -/
theorem project_new_arch_invariant (fs : FS) (wd : Path) (cfg : Option Path)
    (da : Arch) :
    (∀ pr fs', Project.new fs wd cfg da = Except.ok (pr, fs') →
      Arch.from_target pr.config.compile.target = Except.ok pr.arch) ∧
    (∀ lines c e, FS.read fs (configPathOf wd cfg) = some (FileData.text lines) →
      tomlParse lines = some c →
      Arch.from_target c.compile.target = Except.error e →
      Project.new fs wd cfg da =
        Except.error (Failure.panicked ("Unsupportedtarget: " ++ c.compile.target))) := by
  constructor
  · intro pr fs' h
    cases hread : FS.read fs (configPathOf wd cfg) with
    | none =>
        simp [Project.new, hread, from_target_new_config] at h
        obtain ⟨hpr, _⟩ := h
        rw [← hpr]
        exact from_target_new_config da
    | some d =>
        simp [Project.new, hread] at h
        cases d <;> simp at h
        rename_i lines
        cases hparse : tomlParse lines with
        | none => simp [hparse] at h
        | some c =>
            simp only [hparse] at h
            cases htgt : Arch.from_target c.compile.target with
            | ok arch =>
                simp only [htgt] at h
                simp at h
                rw [← h.1]
                exact htgt
            | error e => simp only [htgt] at h; simp at h
  · intro lines c e hread hparse htgt
    simp [Project.new, hread, hparse, htgt]

/-- Witness for C7: a successful concrete construction satisfies the
invariant, and a configuration file whose target triple is unsupported
makes construction fail. -/
theorem project_new_arch_invariant_witness :
    Arch.from_target
        (Project.mk ["w"] (new_config Arch.Riscv64) Arch.Riscv64 none).config.compile.target =
      Except.ok (Project.mk ["w"] (new_config Arch.Riscv64) Arch.Riscv64 none).arch ∧
    Project.new
        [(configPathOf ["w"] none,
          FileData.text (tomlEmit
            { compile := { target := "mips-unknown-linux", package := "kernel" },
              qemu := { machine := none, memory := none, args := "" },
              uboot := none }))] ["w"] none Arch.Aarch64 =
      Except.error (Failure.panicked ("Unsupportedtarget: " ++ "mips-unknown-linux")) := by
  constructor
  · exact (project_new_arch_invariant [] ["w"] none Arch.Riscv64).1
      (Project.mk ["w"] (new_config Arch.Riscv64) Arch.Riscv64 none)
      (FS.write [] (configPathOf ["w"] none)
        (FileData.text (tomlEmit (new_config Arch.Riscv64))))
      (by rfl)
  · exact (project_new_arch_invariant _ ["w"] none Arch.Aarch64).2
      (tomlEmit { compile := { target := "mips-unknown-linux", package := "kernel" },
                  qemu := { machine := none, memory := none, args := "" },
                  uboot := none })
      { compile := { target := "mips-unknown-linux", package := "kernel" },
        qemu := { machine := none, memory := none, args := "" },
        uboot := none }
      (Failure.unsupportedTarget "mips-unknown-linux")
      (by rfl) (by rfl) (by rfl)

/-- C3: configuration precedence in `CargoTestPrepare::run`: the
default-synthesized qemu section is wholesale-replaced by the test-scope
file's qemu section when that file is present and has one, and a manifest
`test-qemu` entry keyed by the resolved architecture's emulator binary
name wholesale-replaces all prior qemu resolution; in particular the
test-scope machine (e.g. "none") wins with no matching manifest key, and
the manifest machine (e.g. "q35") wins when a matching entry exists. -/
theorem cargoTestPrepare_config_precedence
    (elfA elfB : Path) (uA uB : Bool) (cA cB cA' cB' : ProjectCtx)
    (fsA fsB fsA' fsB' : FS) (AA AB : Architecture) (bodyA bodyB : String)
    (archA archB : Arch) (mA : Option (List (String × Qemu)))
    (mapB : List (String × Qemu)) (qm qt : Qemu)
    (hArun : CargoTestPrepare.run ⟨elfA, uA⟩ cA fsA = Except.ok (cA', fsA'))
    (hAelf : FS.read fsA elfA = some (FileData.elfFile AA bodyA))
    (hAarch : Arch.fromArchitecture AA = Except.ok archA)
    (hAtest : FS.read fsA (cA.workdir ++ ["bare-test.toml"]) =
      some (FileData.testToml (some qt)))
    (hAman : FS.read fsA (cA.workdir ++ ["Cargo.toml"]) = some (FileData.cargoToml mA))
    (hAnokey : ∀ mp, mA = some mp → assocLookup (Arch.qemu_arch archA) mp = none)
    (hBrun : CargoTestPrepare.run ⟨elfB, uB⟩ cB fsB = Except.ok (cB', fsB'))
    (hBelf : FS.read fsB elfB = some (FileData.elfFile AB bodyB))
    (hBarch : Arch.fromArchitecture AB = Except.ok archB)
    (hBman : FS.read fsB (cB.workdir ++ ["Cargo.toml"]) =
      some (FileData.cargoToml (some mapB)))
    (hBkey : assocLookup (Arch.qemu_arch archB) mapB = some qm)
    (hBtest : FS.read fsB (cB.workdir ++ ["bare-test.toml"]) = none ∨
      ∃ qB, FS.read fsB (cB.workdir ++ ["bare-test.toml"]) =
        some (FileData.testToml qB)) :
    Option.map (fun c => c.qemu) cA'.config = some qt ∧
    Option.map (fun c => c.qemu) cB'.config = some qm ∧
    (qt.machine = some "none" →
      Option.map (fun c => c.qemu.machine) cA'.config = some (some "none")) ∧
    (qm.machine = some "q35" →
      Option.map (fun c => c.qemu.machine) cB'.config = some (some "q35")) := by
  obtain ⟨_, _, _, _, _, hA6⟩ := run_ok_spec _ _ _ _ _ hArun
  obtain ⟨_, _, _, _, _, hB6⟩ := run_ok_spec _ _ _ _ _ hBrun
  have hAcfg := ((hA6 AA bodyA hAelf).1 archA hAarch).2
  have hBcfg := ((hB6 AB bodyB hBelf).1 archB hBarch).2
  have hAq3 : resolveQemuTest fsA cA.workdir (Qemu.new_default archA) = Except.ok qt := by
    unfold resolveQemuTest
    rw [hAtest]
  have hAq5 : resolveManifest fsA cA.workdir archA qt = Except.ok qt := by
    unfold resolveManifest
    rw [hAman]
    cases mA with
    | none => rfl
    | some mp =>
        have hk := hAnokey mp rfl
        simp only [hk]
  have h1 := hAcfg qt qt hAq3 hAq5
  have hBq3 : ∃ q3B, resolveQemuTest fsB cB.workdir (Qemu.new_default archB) =
      Except.ok q3B := by
    rcases hBtest with hb | ⟨qB, hb⟩
    · exact ⟨_, by unfold resolveQemuTest; rw [hb]⟩
    · exact ⟨_, by unfold resolveQemuTest; rw [hb]⟩
  obtain ⟨q3B, hq3B⟩ := hBq3
  have hBq5 : resolveManifest fsB cB.workdir archB q3B = Except.ok qm := by
    unfold resolveManifest
    rw [hBman]
    simp only [hBkey]
  have h2 := hBcfg q3B qm hq3B hBq5
  refine ⟨h1, h2, fun hm => ?_, fun hm => ?_⟩
  · obtain ⟨cfg, hc, hq⟩ := Option.map_eq_some'.mp h1
    rw [hc]
    simp [hq, hm]
  · obtain ⟨cfg, hc, hq⟩ := Option.map_eq_some'.mp h2
    rw [hc]
    simp [hq, hm]

/-- C8: running `CargoTestPrepare` twice against the same test image
path yields identical (elf_path, bin_path) artifact paths both times,
and each run removes what was at those paths and regenerates them from
the source image (overwrite semantics): after each run the staged ELF
holds the source image and the raw binary holds the freshly converted
body. -/
theorem cargoTestPrepare_idempotent_overwrite
    (elf : Path) (u1 u2 : Bool) (c1 c2 c1' c2' : ProjectCtx)
    (fs fs1 fs2 : FS) (A1 A2 : Architecture) (b1 b2 : String)
    (h1 : CargoTestPrepare.run ⟨elf, u1⟩ c1 fs = Except.ok (c1', fs1))
    (h2 : CargoTestPrepare.run ⟨elf, u2⟩ c2 fs1 = Except.ok (c2', fs2))
    (hsrc1 : FS.read fs elf = some (FileData.elfFile A1 b1))
    (hsrc2 : FS.read fs1 elf = some (FileData.elfFile A2 b2))
    (hne1 : elf ≠ elf.dropLast ++ ["test.elf"])
    (hne2 : elf ≠ elf.dropLast ++ [stemOf (elf.getLast?.getD "") ++ ".bin"]) :
    c1'.elf_path = c2'.elf_path ∧
    c1'.bin_path = c2'.bin_path ∧
    c1'.elf_path = some (elf.dropLast ++ ["test.elf"]) ∧
    c1'.bin_path = some (elf.dropLast ++ [stemOf (elf.getLast?.getD "") ++ ".bin"]) ∧
    FS.read fs1 (elf.dropLast ++ ["test.elf"]) = some (FileData.elfFile A1 b1) ∧
    FS.read fs1 (elf.dropLast ++ [stemOf (elf.getLast?.getD "") ++ ".bin"]) =
      some (FileData.binFile (stripConvert b1)) ∧
    FS.read fs2 (elf.dropLast ++ ["test.elf"]) = some (FileData.elfFile A2 b2) ∧
    FS.read fs2 (elf.dropLast ++ [stemOf (elf.getLast?.getD "") ++ ".bin"]) =
      some (FileData.binFile (stripConvert b2)) := by
  obtain ⟨hA1, hA2, _, _, _, hA6⟩ := run_ok_spec _ _ _ _ _ h1
  obtain ⟨hB1, hB2, _, _, _, hB6⟩ := run_ok_spec _ _ _ _ _ h2
  have hc1 := (hA6 A1 b1 hsrc1).2 hne1 hne2
  have hc2 := (hB6 A2 b2 hsrc2).2 hne1 hne2
  exact ⟨by rw [hA1, hB1], by rw [hA2, hB2], hA1, hA2,
    hc1.2, hc1.1, hc2.2, hc2.1⟩

/-- C10: `CargoTestPrepare` derives the raw-binary artifact path from the
image's file stem ("stem.bin" inside the output directory) but stages the
ELF copy at the fixed name "test.elf" there, independent of the input
image's name; hence a second image prepared into the same output
directory overwrites the first image's staged ELF. -/
theorem cargoTestPrepare_fixed_staged_elf
    (elfA elfB : Path) (uA uB : Bool) (cA cB cA' cB' : ProjectCtx)
    (fsA fsA' fsB' : FS) (AB : Architecture) (bodyB : String)
    (hA : CargoTestPrepare.run ⟨elfA, uA⟩ cA fsA = Except.ok (cA', fsA'))
    (hB : CargoTestPrepare.run ⟨elfB, uB⟩ cB fsA' = Except.ok (cB', fsB'))
    (hpar : elfB.dropLast = elfA.dropLast)
    (hBsrc : FS.read fsA' elfB = some (FileData.elfFile AB bodyB))
    (hne1 : elfB ≠ elfB.dropLast ++ ["test.elf"])
    (hne2 : elfB ≠ elfB.dropLast ++ [stemOf (elfB.getLast?.getD "") ++ ".bin"]) :
    cA'.bin_path = some (elfA.dropLast ++ [stemOf (elfA.getLast?.getD "") ++ ".bin"]) ∧
    cA'.elf_path = some (elfA.dropLast ++ ["test.elf"]) ∧
    cB'.elf_path = cA'.elf_path ∧
    FS.read fsB' (elfA.dropLast ++ ["test.elf"]) = some (FileData.elfFile AB bodyB) := by
  obtain ⟨hA1, hA2, _, _, _, _⟩ := run_ok_spec _ _ _ _ _ hA
  obtain ⟨hB1, hB2, _, _, _, hB6⟩ := run_ok_spec _ _ _ _ _ hB
  refine ⟨hA2, hA1, by rw [hB1, hA1, hpar], ?_⟩
  have hcontent := (hB6 AB bodyB hBsrc).2 hne1 hne2
  rw [← hpar]
  exact hcontent.2

/-- A fresh project context, as supplied by the test-harness entry point. -/
def ctxInit : ProjectCtx := ⟨["w"], none, none, none, none, none⟩

/-- A qemu section with machine "none". -/
def qemuNone : Qemu := ⟨some "none", none, ""⟩

/-- A qemu section with machine "q35". -/
def qemuQ35 : Qemu := ⟨some "q35", none, ""⟩

def elfPathA : Path := ["w", "out", "a.elf"]

def fsA3 : FS := [(elfPathA, FileData.elfFile Architecture.Aarch64 "EA"),
  (["w", "bare-test.toml"], FileData.testToml (some qemuNone)),
  (["w", "Cargo.toml"], FileData.cargoToml none)]

def fsB3 : FS := [(elfPathA, FileData.elfFile Architecture.Aarch64 "EB"),
  (["w", "bare-test.toml"], FileData.testToml (some qemuNone)),
  (["w", "Cargo.toml"], FileData.cargoToml (some [("qemu-system-aarch64", qemuQ35)]))]

def fsA3r : FS := fsA3 ++
  [(["w", "out", "test.elf"], FileData.elfFile Architecture.Aarch64 "EA"),
   (["w", "out", "a.bin"], FileData.binFile (stripConvert "EA"))]

def fsB3r : FS := fsB3 ++
  [(["w", "out", "test.elf"], FileData.elfFile Architecture.Aarch64 "EB"),
   (["w", "out", "a.bin"], FileData.binFile (stripConvert "EB"))]

def ctxA3 : ProjectCtx := ⟨["w"], some Arch.Aarch64, some ["w", "out"],
  some ⟨⟨"aarch64-unknown-none-softfloat", "kernel"⟩, qemuNone, none⟩,
  some ["w", "out", "test.elf"], some ["w", "out", "a.bin"]⟩

def ctxB3 : ProjectCtx := ⟨["w"], some Arch.Aarch64, some ["w", "out"],
  some ⟨⟨"aarch64-unknown-none-softfloat", "kernel"⟩, qemuQ35, none⟩,
  some ["w", "out", "test.elf"], some ["w", "out", "a.bin"]⟩

/-- Witness for C3: a concrete base/test-scope/manifest configuration in
which the test-scope machine "none" wins without a manifest key, and the
manifest machine "q35" wins with one. -/
theorem cargoTestPrepare_config_precedence_witness :
    Option.map (fun c => c.qemu) ctxA3.config = some qemuNone ∧
    Option.map (fun c => c.qemu) ctxB3.config = some qemuQ35 ∧
    (qemuNone.machine = some "none" →
      Option.map (fun c => c.qemu.machine) ctxA3.config = some (some "none")) ∧
    (qemuQ35.machine = some "q35" →
      Option.map (fun c => c.qemu.machine) ctxB3.config = some (some "q35")) :=
  cargoTestPrepare_config_precedence elfPathA elfPathA false false ctxInit ctxInit
    ctxA3 ctxB3 fsA3 fsB3 fsA3r fsB3r Architecture.Aarch64 Architecture.Aarch64
    "EA" "EB" Arch.Aarch64 Arch.Aarch64 none [("qemu-system-aarch64", qemuQ35)]
    qemuQ35 qemuNone
    rfl rfl rfl rfl rfl (fun _ h => Option.noConfusion h)
    rfl rfl rfl rfl rfl (Or.inr ⟨some qemuNone, rfl⟩)

def elfPath8 : Path := ["w", "out", "case.elf"]

def fs8 : FS := [(elfPath8, FileData.elfFile Architecture.Riscv64 "E1"),
  (["w", "Cargo.toml"], FileData.cargoToml none)]

def fs8r : FS := fs8 ++
  [(["w", "out", "test.elf"], FileData.elfFile Architecture.Riscv64 "E1"),
   (["w", "out", "case.bin"], FileData.binFile (stripConvert "E1"))]

def ctx8 : ProjectCtx := ⟨["w"], some Arch.Riscv64, some ["w", "out"],
  some ⟨⟨"riscv64gc-unknown-none-elf", "kernel"⟩, ⟨some "virt", none, ""⟩, none⟩,
  some ["w", "out", "test.elf"], some ["w", "out", "case.bin"]⟩

/-- Witness for C8: two concrete successive runs on the same test image
produce the same artifact paths and freshly regenerated contents. -/
theorem cargoTestPrepare_idempotent_overwrite_witness :
    ctx8.elf_path = ctx8.elf_path ∧
    ctx8.bin_path = ctx8.bin_path ∧
    ctx8.elf_path = some (elfPath8.dropLast ++ ["test.elf"]) ∧
    ctx8.bin_path = some (elfPath8.dropLast ++
      [stemOf (elfPath8.getLast?.getD "") ++ ".bin"]) ∧
    FS.read fs8r (elfPath8.dropLast ++ ["test.elf"]) =
      some (FileData.elfFile Architecture.Riscv64 "E1") ∧
    FS.read fs8r (elfPath8.dropLast ++ [stemOf (elfPath8.getLast?.getD "") ++ ".bin"]) =
      some (FileData.binFile (stripConvert "E1")) ∧
    FS.read fs8r (elfPath8.dropLast ++ ["test.elf"]) =
      some (FileData.elfFile Architecture.Riscv64 "E1") ∧
    FS.read fs8r (elfPath8.dropLast ++ [stemOf (elfPath8.getLast?.getD "") ++ ".bin"]) =
      some (FileData.binFile (stripConvert "E1")) :=
  cargoTestPrepare_idempotent_overwrite elfPath8 false false ctxInit ctxInit ctx8 ctx8
    fs8 fs8r fs8r Architecture.Riscv64 Architecture.Riscv64 "E1" "E1"
    rfl rfl rfl rfl (by decide) (by decide)

def elfPathB : Path := ["w", "out", "b.elf"]

def fs10 : FS := [(elfPathA, FileData.elfFile Architecture.Aarch64 "EA"),
  (elfPathB, FileData.elfFile Architecture.X86_64 "EB"),
  (["w", "Cargo.toml"], FileData.cargoToml none)]

def fs10a : FS := fs10 ++
  [(["w", "out", "test.elf"], FileData.elfFile Architecture.Aarch64 "EA"),
   (["w", "out", "a.bin"], FileData.binFile (stripConvert "EA"))]

def fs10b : FS := [(elfPathA, FileData.elfFile Architecture.Aarch64 "EA"),
  (elfPathB, FileData.elfFile Architecture.X86_64 "EB"),
  (["w", "Cargo.toml"], FileData.cargoToml none),
  (["w", "out", "a.bin"], FileData.binFile (stripConvert "EA")),
  (["w", "out", "test.elf"], FileData.elfFile Architecture.X86_64 "EB"),
  (["w", "out", "b.bin"], FileData.binFile (stripConvert "EB"))]

def ctx10a : ProjectCtx := ⟨["w"], some Arch.Aarch64, some ["w", "out"],
  some ⟨⟨"aarch64-unknown-none-softfloat", "kernel"⟩, ⟨some "virt", none, ""⟩, none⟩,
  some ["w", "out", "test.elf"], some ["w", "out", "a.bin"]⟩

def ctx10b : ProjectCtx := ⟨["w"], some Arch.X86_64, some ["w", "out"],
  some ⟨⟨"x86_64-unknown-none", "kernel"⟩, ⟨some "virt", none, ""⟩, none⟩,
  some ["w", "out", "test.elf"], some ["w", "out", "b.bin"]⟩

/-- Witness for C10: two concrete images prepared into the same output
directory stage their ELF copies at the same fixed path, and the second
run's copy replaces the first one's. -/
theorem cargoTestPrepare_fixed_staged_elf_witness :
    ctx10a.bin_path = some (elfPathA.dropLast ++
      [stemOf (elfPathA.getLast?.getD "") ++ ".bin"]) ∧
    ctx10a.elf_path = some (elfPathA.dropLast ++ ["test.elf"]) ∧
    ctx10b.elf_path = ctx10a.elf_path ∧
    FS.read fs10b (elfPathA.dropLast ++ ["test.elf"]) =
      some (FileData.elfFile Architecture.X86_64 "EB") :=
  cargoTestPrepare_fixed_staged_elf elfPathA elfPathB false false ctxInit ctxInit
    ctx10a ctx10b fs10 fs10a fs10b Architecture.X86_64 "EB"
    rfl rfl rfl rfl (by decide) (by decide)

end Ostool
